import Mathlib

/-!
Verification development for the Agensense voice-agent client (`Agent.py`).

The repository is a thin client over a remote conversational-voice service.
This file gives a shallow embedding of its operations:

* the voice session controller (`start_conversation`, `stop_conversation`,
  `handle_user_transcript`), whose mutable context (the global `conversation`
  variable, the `st.session_state.agent_running` flag, the SDK calls made and
  the UI writes issued) is modelled by the explicit state record `AgentState`;
* the HTTP client operations (`get_conversations`, `get_messages`,
  `delete_conversation`, `get_audio`), modelled as pure functions of the
  response the remote service delivers.  JSON bodies are modelled by the
  inductive `Json`; Python operations that can raise (`d[k]` subscripting,
  iteration, the `in` operator) return `Except PyErr`, so a raised
  `KeyError` or `TypeError` is an explicit `.error` value.

The audio decode and re-encode steps of `get_audio` are calls into the
external pydub library; they are abstracted as function parameters of the
embedding, since their internals are not part of this repository.
-/

namespace Agensense

/-- JSON values, the model of parsed Python `response.json()` bodies.
Objects are association lists of string keys. -/
inductive Json where
  | null : Json
  | bool : Bool → Json
  | num : Int → Json
  | str : String → Json
  | arr : List Json → Json
  | obj : List (String × Json) → Json

/-- Python exceptions that the embedded operations can raise. -/
inductive PyErr where
  | keyError : PyErr
  | typeError : PyErr
deriving DecidableEq

/-- Field lookup on a JSON value: the value under key `k` when the value is
an object that has the key, `none` otherwise. -/
def Json.lookup : Json → String → Option Json
  | .obj kvs, k => kvs.lookup k
  | _, _ => none

/-- Python subscripting `j[k]` with a string key: returns the field of an
object, raises `KeyError` when the key is absent, and raises `TypeError`
when `j` is not a dict. -/
def pySubscript (j : Json) (k : String) : Except PyErr Json :=
  match j with
  | .obj kvs =>
    match kvs.lookup k with
    | some v => Except.ok v
    | none => Except.error PyErr.keyError
  | _ => Except.error PyErr.typeError

/-- Python iteration `for x in j`: the elements of a list, the keys of a
dict, the one-character strings of a string; anything else raises
`TypeError`. -/
def pyIter (j : Json) : Except PyErr (List Json) :=
  match j with
  | .arr xs => Except.ok xs
  | .obj kvs => Except.ok (kvs.map (fun kv => Json.str kv.1))
  | .str s => Except.ok (s.data.map (fun c => Json.str (String.mk [c])))
  | _ => Except.error PyErr.typeError

/-- Whether the character list `sub` occurs at the start of `l`. -/
def startsWithChars : List Char → List Char → Bool
  | [], _ => true
  | _ :: _, [] => false
  | a :: as, b :: bs => a == b && startsWithChars as bs

/-- Whether the character list `sub` occurs contiguously anywhere in `l`. -/
def containsChars (sub : List Char) : List Char → Bool
  | [] => sub.isEmpty
  | c :: rest => startsWithChars sub (c :: rest) || containsChars sub rest

/-- The Python `in` operator `k in j` for a string `k`: key membership for a
dict, element membership for a list (a string compares equal only to an
equal string), substring membership for a string; raises `TypeError`
otherwise. -/
def pyContains (k : String) (j : Json) : Except PyErr Bool :=
  match j with
  | .obj kvs => Except.ok (kvs.lookup k).isSome
  | .arr xs =>
    Except.ok (xs.any (fun x => match x with | .str s => s == k | _ => false))
  | .str s => Except.ok (containsChars k.data s.data)
  | _ => Except.error PyErr.typeError

/-- Python `str.lower()`, modelled characterwise. -/
def pyLower (s : String) : String := String.mk (s.data.map Char.toLower)

/-- Python `str.strip()`: drop whitespace from both ends. -/
def pyStrip (s : String) : String :=
  String.mk (((s.data.dropWhile Char.isWhitespace).reverse.dropWhile
    Char.isWhitespace).reverse)

/-- An HTTP response whose body is JSON, as seen by the client after
`response.json()` parsing. -/
structure Response where
  status_code : Nat
  body : Json

/-- An HTTP response carrying raw bytes (`response.content`). -/
structure BinResponse where
  status_code : Nat
  content : List Nat

/-- The mutable context of the voice session controller in `Agent.py`:
the global `conversation` variable (a handle standing for the SDK
`Conversation` object, `none` before the first start), the
`st.session_state.agent_running` flag, the handles on which
`start_session` and `stop_session` were invoked (in order), and the
strings passed to `st.write` (in order). -/
structure AgentState where
  conversation : Option Nat
  agent_running : Bool
  startCalls : List Nat
  stopCalls : List Nat
  writes : List String
deriving DecidableEq

/-- The initial context: the global `conversation` is `None` and `main`
initialises `st.session_state.agent_running` to `False`. -/
def initState : AgentState :=
  { conversation := none, agent_running := false,
    startCalls := [], stopCalls := [], writes := [] }

/-- `start_conversation` from `Agent.py`: unconditionally builds a fresh
`Conversation` (the new handle `h`), stores it in the global, calls
`start_session` on it and sets the running flag.  The function performs no
check of the current state; the previous handle, if any, is dropped
without a `stop_session` call. -/
def start_conversation (h : Nat) (s : AgentState) : AgentState :=
  { s with conversation := some h,
           startCalls := s.startCalls ++ [h],
           agent_running := true }

/-- `stop_conversation` from `Agent.py`: guarded by the truthiness of the
global `conversation` (not by the running flag).  When a handle is
present it calls `stop_session` on it, clears the running flag and writes
the stop banner; the handle itself is never cleared. -/
def stop_conversation (s : AgentState) : AgentState :=
  match s.conversation with
  | some h =>
    { s with stopCalls := s.stopCalls ++ [h],
             agent_running := false,
             writes := s.writes ++ ["**Agent has been stopped**"] }
  | none => s

/-- The `st.write` of the user line at the top of `handle_user_transcript`. -/
def user_write (t : String) (s : AgentState) : AgentState :=
  { s with writes := s.writes ++ ["**User:** " ++ t] }

/-- `handle_user_transcript` from `Agent.py`: writes the user line, then
calls `stop_conversation` exactly when `transcript.strip().lower()`
equals `"stop"`. -/
def handle_user_transcript (t : String) (s : AgentState) : AgentState :=
  let s1 := user_write t s
  if pyLower (pyStrip t) = "stop" then stop_conversation s1 else s1

/-- The two states of the session state machine described by the spec. -/
inductive SessState where
  | Idle : SessState
  | Running : SessState
deriving DecidableEq

/-- The state-machine state of a context: `Running` exactly when the
running flag is set. -/
def AgentState.sessState (s : AgentState) : SessState :=
  if s.agent_running then SessState.Running else SessState.Idle

/-- Controller events: a start (with the fresh handle the SDK returns), an
explicit stop, or a recognised user utterance delivered to the
transcript callback. -/
inductive Ev where
  | start : Nat → Ev
  | stop : Ev
  | transcript : String → Ev
deriving DecidableEq

/-- Whether an event is a start. -/
def Ev.isStart : Ev → Bool
  | .start _ => true
  | _ => false

/-- One controller event applied to the context. -/
def step (s : AgentState) : Ev → AgentState
  | .start h => start_conversation h s
  | .stop => stop_conversation s
  | .transcript t => handle_user_transcript t s

/-- The context after a sequence of controller events from the initial
context. -/
def run (ts : List Ev) : AgentState := ts.foldl step initState

/-- A Python list comprehension `[f x for x in xs]` where each `f x` may
raise: evaluated left to right, the first raise aborts the whole
comprehension. -/
def mapExcept (f : Json → Except PyErr Json) : List Json → Except PyErr (List Json)
  | [] => Except.ok []
  | x :: xs => do
    let y ← f x
    let ys ← mapExcept f xs
    Except.ok (y :: ys)

/-- The values of field `k` across a list of JSON values, when every
element is an object carrying the field; `none` otherwise.  Used to state
the well-formed-body hypotheses of the claims. -/
def lookupAll (k : String) : List Json → Option (List Json)
  | [] => some []
  | it :: rest => do
    let v ← it.lookup k
    let vs ← lookupAll k rest
    some (v :: vs)

/-- `get_conversations` from `Agent.py`.  On a 200 response whose body is a
dict containing the key `"conversations"` (the `isinstance` check and the
`in` check of the source, fused with the subsequent guaranteed dict
access into one lookup) it builds
`[conversation["conversation_id"] for conversation in data["conversations"]]`;
on any other 200 body, and on any non-200 status, it returns `[]`. -/
def get_conversations (r : Response) : Except PyErr (List Json) :=
  if r.status_code = 200 then
    match r.body with
    | .obj kvs =>
      match kvs.lookup "conversations" with
      | some convs => do
        let items ← pyIter convs
        mapExcept (fun c => pySubscript c "conversation_id") items
      | none => Except.ok []
    | _ => Except.ok []
  else Except.ok []

/-- `get_audio` from `Agent.py`, parametrised by the external pydub
decode (`AudioSegment.from_mp3`, here `from_mp3`) and encode
(`AudioSegment.export` to wav, here `export_wav`) steps.  On a 200
response it decodes `response.content`, writes the wav encoding to the
file `f"{conversation_id}_audio.wav"` and returns that path; on any other
status it returns `None` and writes nothing.  The second component
collects the file writes performed. -/
def get_audio (from_mp3 : List Nat → List Int) (export_wav : List Int → List Nat)
    (conversation_id : String) (r : BinResponse) :
    Option String × List (String × List Nat) :=
  if r.status_code = 200 then
    let audio := from_mp3 r.content
    let audio_file_path := conversation_id ++ "_audio.wav"
    (some audio_file_path, [(audio_file_path, export_wav audio)])
  else (none, [])

/-- `delete_conversation` from `Agent.py`: a fixed success string on
status 200, a fixed failure string otherwise.  No operation in its body
can raise, which the `Except` result type records as always-`ok`. -/
def delete_conversation (conversation_id : String) (r : Response) :
    Except PyErr String :=
  if r.status_code = 200 then Except.ok "Conversation deleted successfully."
  else Except.ok "Failed to delete the conversation."

/-- `get_messages` from `Agent.py`.  On a 200 response it tests
`"transcript" in data` (no `isinstance` guard in the source, so the `in`
operator itself can raise on a non-container body), then builds
`[message["message"] for message in data["transcript"]]` when the test
succeeds and returns the no-messages placeholder when it fails; on a
non-200 status it returns the fetch-failure placeholder. -/
def get_messages (conversation_id : String) (r : Response) :
    Except PyErr (List Json) :=
  if r.status_code = 200 then
    match pyContains "transcript" r.body with
    | .error e => Except.error e
    | .ok true => do
      let tr ← pySubscript r.body "transcript"
      let items ← pyIter tr
      mapExcept (fun m => pySubscript m "message") items
    | .ok false => Except.ok [Json.str "No messages found in this conversation."]
  else Except.ok [Json.str "Failed to fetch messages."]

/-- One invocation of a registry, detail or admin client operation,
together with the response the remote service delivers to it (and, for
the audio fetch, the external codec functions). -/
inductive ClientOp where
  | listConvs : Response → ClientOp
  | transcriptFetch : String → Response → ClientOp
  | audioFetch : (List Nat → List Int) → (List Int → List Nat) → String →
      BinResponse → ClientOp
  | deleteConv : String → Response → ClientOp

/-- The result a client operation hands back to its caller. -/
inductive ClientResult where
  | ids : Except PyErr (List Json) → ClientResult
  | msgs : Except PyErr (List Json) → ClientResult
  | audio : Option String × List (String × List Nat) → ClientResult
  | outcome : Except PyErr String → ClientResult

/-- A client operation run against the voice session controller context:
the state-threaded translation of the Python functions, none of which
reads or writes the global `conversation` or the running flag. -/
def execClientOp (s : AgentState) : ClientOp → AgentState × ClientResult
  | .listConvs r => (s, ClientResult.ids (get_conversations r))
  | .transcriptFetch cid r => (s, ClientResult.msgs (get_messages cid r))
  | .audioFetch fm ew cid r => (s, ClientResult.audio (get_audio fm ew cid r))
  | .deleteConv cid r => (s, ClientResult.outcome (delete_conversation cid r))

/-- A concrete context with a live session: handle 1 is stored and
started, and the running flag is set. -/
def s_running : AgentState :=
  { conversation := some 1, agent_running := true,
    startCalls := [1], stopCalls := [], writes := [] }

/-- Whether a JSON value is an object (a Python dict). -/
def Json.isObj : Json → Bool
  | .obj _ => true
  | _ => false

/-- The registry body of the worked example in the spec:
`{"conversations":[{"conversation_id":"a1"},{"conversation_id":"b2"}]}`. -/
def exampleRegistryBody : Json :=
  Json.obj [("conversations", Json.arr
    [Json.obj [("conversation_id", Json.str "a1")],
     Json.obj [("conversation_id", Json.str "b2")]])]

/-- The transcript body of the worked example in the spec:
`{"transcript":[{"message":"hi"},{"message":"bye"}]}`. -/
def exampleTranscriptBody : Json :=
  Json.obj [("transcript", Json.arr
    [Json.obj [("message", Json.str "hi")],
     Json.obj [("message", Json.str "bye")]])]

/-- A 200 registry body whose `conversations` entries lack the
`conversation_id` field the comprehension subscripts. -/
def malformedRegistryBody : Json :=
  Json.obj [("conversations", Json.arr [Json.obj []])]

/-- Subscripting with a key the object carries returns its value. -/
theorem pySubscript_of_lookup {j : Json} {k : String} {v : Json}
    (h : j.lookup k = some v) : pySubscript j k = Except.ok v := by
  cases j <;> simp [Json.lookup] at h <;> simp [pySubscript, h]

/-- When every element carries field `k`, the raising comprehension
returns exactly the field values, in order. -/
theorem mapExcept_of_lookupAll {k : String} :
    ∀ {items vs : List Json}, lookupAll k items = some vs →
      mapExcept (fun it => pySubscript it k) items = Except.ok vs := by
  intro items
  induction items with
  | nil =>
    intro vs h
    simp [lookupAll] at h
    simp [mapExcept, ← h]
  | cons it rest ih =>
    intro vs h
    simp only [lookupAll, Option.bind_eq_bind, Option.bind_eq_some] at h
    obtain ⟨v, hv, hrest⟩ := h
    obtain ⟨vs', hvs', hcons⟩ := hrest
    simp only [Option.some.injEq] at hcons
    subst hcons
    simp only [mapExcept]
    rw [pySubscript_of_lookup hv, ih hvs']
    rfl

/-- No controller event clears the global handle once it is set. -/
theorem step_keeps_handle {s : AgentState} (e : Ev)
    (h : s.conversation ≠ none) : (step s e).conversation ≠ none := by
  cases e with
  | start h2 => simp [step, start_conversation]
  | stop =>
    cases hc : s.conversation with
    | none => exact absurd hc h
    | some h1 => simp [step, stop_conversation, hc]
  | transcript t =>
    cases hc : s.conversation with
    | none => exact absurd hc h
    | some h1 =>
      simp only [step, handle_user_transcript, user_write]
      split
      · simp [stop_conversation, hc]
      · simp [hc]

/-- Event folding keeps a set handle set. -/
theorem foldl_keeps_handle :
    ∀ (ts : List Ev) (s : AgentState), s.conversation ≠ none →
      (ts.foldl step s).conversation ≠ none := by
  intro ts
  induction ts with
  | nil => intro s h; simpa using h
  | cons e rest ih =>
    intro s h
    simpa [List.foldl_cons] using ih (step s e) (step_keeps_handle e h)

/-- With no handle set, a start-free event leaves the handle unset and the
running flag untouched. -/
theorem step_no_handle_no_start {s : AgentState} {e : Ev}
    (hc : s.conversation = none) (he : e.isStart = false) :
    (step s e).conversation = none ∧
      (step s e).agent_running = s.agent_running := by
  cases e with
  | start h2 => simp [Ev.isStart] at he
  | stop => simp [step, stop_conversation, hc]
  | transcript t =>
    simp only [step, handle_user_transcript, user_write]
    split
    · simp [stop_conversation, hc]
    · simp [hc]

/-- Folding start-free events keeps the handle unset and the flag
untouched. -/
theorem foldl_no_start :
    ∀ (ts : List Ev) (s : AgentState), s.conversation = none →
      (∀ e ∈ ts, e.isStart = false) →
      (ts.foldl step s).conversation = none ∧
        (ts.foldl step s).agent_running = s.agent_running := by
  intro ts
  induction ts with
  | nil => intro s hc _; exact ⟨hc, rfl⟩
  | cons e rest ih =>
    intro s hc hns
    have he : e.isStart = false := hns e (by simp)
    have hstep := step_no_handle_no_start hc he
    have hrest := ih (step s e) hstep.1 (fun e2 h2 => hns e2 (by simp [h2]))
    exact ⟨hrest.1, hrest.2.trans hstep.2⟩

/-- C9: registry, detail and admin operations never modify the voice
session controller context — in particular every failing one (non-success
status or malformed body) leaves the state-machine state and the session
handle unchanged. -/
theorem claim_C9 (s : AgentState) (op : ClientOp) : (execClientOp s op).1 = s := by
  cases op <;> rfl

/-- C5: `delete_conversation` returns the fixed success string on a 200
response and the fixed failure string on any other status, and in every
case returns normally (an `ok` value, never a raise). -/
theorem claim_C5 (conversation_id : String) (r : Response) :
    (r.status_code = 200 →
      delete_conversation conversation_id r =
        Except.ok "Conversation deleted successfully.") ∧
    (r.status_code ≠ 200 →
      delete_conversation conversation_id r =
        Except.ok "Failed to delete the conversation.") ∧
    (∃ msg, delete_conversation conversation_id r = Except.ok msg) := by
  refine ⟨?_, ?_, ?_⟩
  · intro h; simp [delete_conversation, h]
  · intro h; simp [delete_conversation, h]
  · by_cases h : r.status_code = 200
    · exact ⟨"Conversation deleted successfully.", by simp [delete_conversation, h]⟩
    · exact ⟨"Failed to delete the conversation.", by simp [delete_conversation, h]⟩

/-- C5 witness: a 200 delete response yields the success string and a 403
response yields the failure string. -/
theorem claim_C5_witness :
    delete_conversation "c1" ⟨200, Json.null⟩ =
      Except.ok "Conversation deleted successfully." ∧
    delete_conversation "c1" ⟨403, Json.null⟩ =
      Except.ok "Failed to delete the conversation." :=
  ⟨(claim_C5 "c1" ⟨200, Json.null⟩).1 rfl,
   (claim_C5 "c1" ⟨403, Json.null⟩).2.1 (by decide)⟩

/-- C8: `get_audio` returns no handle and writes nothing on a non-success
response; on a 200 response it decodes the delivered bytes, re-encodes
them, writes the result to the file named `conversation_id ++ "_audio.wav"`
— a deterministic function of the conversation identifier — and returns
that path. -/
theorem claim_C8 (from_mp3 : List Nat → List Int) (export_wav : List Int → List Nat)
    (conversation_id : String) (r : BinResponse) :
    (r.status_code ≠ 200 →
      get_audio from_mp3 export_wav conversation_id r = (none, [])) ∧
    (r.status_code = 200 →
      get_audio from_mp3 export_wav conversation_id r =
        (some (conversation_id ++ "_audio.wav"),
         [(conversation_id ++ "_audio.wav", export_wav (from_mp3 r.content))])) := by
  constructor
  · intro h; simp [get_audio, h]
  · intro h; simp [get_audio, h]

/-- C8 witness: a 404 audio response yields no handle; a 200 response with
bytes `[7, 8]` yields the path `"c1_audio.wav"` and one file write holding
the re-encoded decode of those bytes. -/
theorem claim_C8_witness :
    get_audio (fun b => b.map Int.ofNat) (fun a => a.map Int.toNat) "c1"
        ⟨404, []⟩ = (none, []) ∧
    get_audio (fun b => b.map Int.ofNat) (fun a => a.map Int.toNat) "c1"
        ⟨200, [7, 8]⟩ =
      (some ("c1" ++ "_audio.wav"),
       [("c1" ++ "_audio.wav",
         (fun a => a.map Int.toNat) ((fun b => b.map Int.ofNat) [7, 8]))]) :=
  ⟨(claim_C8 _ _ "c1" ⟨404, []⟩).1 (by decide),
   (claim_C8 _ _ "c1" ⟨200, [7, 8]⟩).2 rfl⟩

/-- C7: on a 200 registry response whose body is a dict whose
`conversations` field is a list of dicts each carrying `conversation_id`,
`get_conversations` returns exactly those identifier values, in the order
they appear in the body. -/
theorem claim_C7 (r : Response) (kvs : List (String × Json))
    (items ids : List Json)
    (hst : r.status_code = 200) (hbody : r.body = Json.obj kvs)
    (hconvs : kvs.lookup "conversations" = some (Json.arr items))
    (hids : lookupAll "conversation_id" items = some ids) :
    get_conversations r = Except.ok ids := by
  simp [get_conversations, hst, hbody, hconvs, pyIter, Bind.bind, Except.bind,
    mapExcept_of_lookupAll hids]

/-- C7 witness: the registry body of the spec example yields exactly
`["a1", "b2"]` in order. -/
theorem claim_C7_witness :
    get_conversations ⟨200, exampleRegistryBody⟩ =
      Except.ok [Json.str "a1", Json.str "b2"] :=
  claim_C7 ⟨200, exampleRegistryBody⟩ _ _ _ rfl rfl rfl rfl

/-- C3 (amended): `get_conversations` returns `[]` on any non-success
status, on a 200 body that is a dict lacking the `conversations` key, and
on a 200 body that is not a dict at all.  (The original claim extended
the fail-soft guarantee to a field missing anywhere in the body; the
counterexample shows an entry lacking `conversation_id` raises
`KeyError` instead.) -/
theorem claim_C3 (r : Response) :
    (r.status_code ≠ 200 → get_conversations r = Except.ok []) ∧
    (∀ kvs, r.status_code = 200 → r.body = Json.obj kvs →
      kvs.lookup "conversations" = none → get_conversations r = Except.ok []) ∧
    (r.status_code = 200 → r.body.isObj = false →
      get_conversations r = Except.ok []) := by
  refine ⟨?_, ?_, ?_⟩
  · intro h; simp [get_conversations, h]
  · intro kvs h hb hl; simp [get_conversations, h, hb, hl]
  · intro h hobj
    cases hb2 : r.body
    case obj kvs => rw [hb2] at hobj; simp [Json.isObj] at hobj
    all_goals simp [get_conversations, h, hb2]

/-- C3 counterexample: a 200 registry response whose `conversations`
entries lack the `conversation_id` field raises `KeyError` instead of
returning the empty sequence. -/
theorem claim_C3_counterexample :
    get_conversations ⟨200, malformedRegistryBody⟩ =
      Except.error PyErr.keyError ∧
    ∀ l : List Json,
      get_conversations ⟨200, malformedRegistryBody⟩ ≠ Except.ok l := by
  constructor
  · rfl
  · intro l h
    exact Except.noConfusion
      (show (Except.error PyErr.keyError : Except PyErr (List Json)) =
        Except.ok l from h)

/-- C3 witness: a 404 response, a 200 dict body without `conversations`,
and a 200 non-dict body all yield `[]`. -/
theorem claim_C3_witness :
    get_conversations ⟨404, Json.null⟩ = Except.ok [] ∧
    get_conversations ⟨200, Json.obj [("foo", Json.null)]⟩ = Except.ok [] ∧
    get_conversations ⟨200, Json.arr []⟩ = Except.ok [] :=
  ⟨(claim_C3 ⟨404, Json.null⟩).1 (by decide),
   (claim_C3 ⟨200, Json.obj [("foo", Json.null)]⟩).2.1
     [("foo", Json.null)] rfl rfl rfl,
   (claim_C3 ⟨200, Json.arr []⟩).2.2 rfl rfl⟩

/-- C4: `get_messages` returns the ordered message texts on a 200 response
whose `transcript` field is a list of message-bearing dicts; the
no-messages placeholder on a 200 dict body lacking `transcript`; the
fetch-failure placeholder on any non-success status; each case returns
normally (an `ok` value), and the two placeholders are distinct. -/
theorem claim_C4 (conversation_id : String) (r : Response) :
    (∀ kvs items msgs, r.status_code = 200 → r.body = Json.obj kvs →
      kvs.lookup "transcript" = some (Json.arr items) →
      lookupAll "message" items = some msgs →
      get_messages conversation_id r = Except.ok msgs) ∧
    (∀ kvs, r.status_code = 200 → r.body = Json.obj kvs →
      kvs.lookup "transcript" = none →
      get_messages conversation_id r =
        Except.ok [Json.str "No messages found in this conversation."]) ∧
    (r.status_code ≠ 200 →
      get_messages conversation_id r =
        Except.ok [Json.str "Failed to fetch messages."]) ∧
    (Json.str "No messages found in this conversation." ≠
      Json.str "Failed to fetch messages.") := by
  refine ⟨?_, ?_, ?_, ?_⟩
  · intro kvs items msgs hst hb hl hm
    have hsub : pySubscript (Json.obj kvs) "transcript" = Except.ok (Json.arr items) :=
      pySubscript_of_lookup (by simpa [Json.lookup] using hl)
    simp [get_messages, hst, hb, pyContains, hl, hsub, pyIter,
      Bind.bind, Except.bind, mapExcept_of_lookupAll hm]
  · intro kvs hst hb hl
    simp [get_messages, hst, hb, pyContains, hl]
  · intro h
    simp [get_messages, h]
  · intro h
    injection h with h2
    exact absurd h2 (by decide)

/-- C4 witness: the spec example transcript yields `["hi", "bye"]`, a 200
body without `transcript` yields the no-messages placeholder, and a 500
response yields the fetch-failure placeholder. -/
theorem claim_C4_witness :
    get_messages "c1" ⟨200, exampleTranscriptBody⟩ =
      Except.ok [Json.str "hi", Json.str "bye"] ∧
    get_messages "c1" ⟨200, Json.obj [("foo", Json.null)]⟩ =
      Except.ok [Json.str "No messages found in this conversation."] ∧
    get_messages "c1" ⟨500, Json.null⟩ =
      Except.ok [Json.str "Failed to fetch messages."] :=
  ⟨(claim_C4 "c1" ⟨200, exampleTranscriptBody⟩).1 _ _ _ rfl rfl rfl rfl,
   (claim_C4 "c1" ⟨200, Json.obj [("foo", Json.null)]⟩).2.1
     [("foo", Json.null)] rfl rfl rfl,
   (claim_C4 "c1" ⟨500, Json.null⟩).2.2.1 (by decide)⟩

/-- C1 counterexample: `start_conversation` called while the session is
`Running` (handle 1 live, flag set) does not fail — it replaces the
active handle with the fresh one, starts a second stream, and never calls
`stop_session` on the old handle; the already-active session is not left
untouched as the claim requires. -/
theorem claim_C1_counterexample :
    s_running.agent_running = true ∧
    (start_conversation 2 s_running).conversation = some 2 ∧
    (start_conversation 2 s_running).conversation ≠ s_running.conversation ∧
    (start_conversation 2 s_running).startCalls = [1, 2] ∧
    (start_conversation 2 s_running).stopCalls = [] := by
  decide

/-- C1 (amended): `start_conversation` performs no running-state check;
called while the session state is `Running` it succeeds, stores the fresh
handle in place of the active one, calls `start_session` on the fresh
handle, leaves the flag set, and issues no `stop_session` (no teardown) on
the replaced handle.  The `SessionAlreadyActive` refusal exists only in
the presentation layer, which does not offer start while running. -/
theorem claim_C1 (s : AgentState) (h2 : Nat) (_hrun : s.agent_running = true) :
    (start_conversation h2 s).conversation = some h2 ∧
    (start_conversation h2 s).agent_running = true ∧
    (start_conversation h2 s).startCalls = s.startCalls ++ [h2] ∧
    (start_conversation h2 s).stopCalls = s.stopCalls ∧
    (start_conversation h2 s).writes = s.writes := by
  exact ⟨rfl, rfl, rfl, rfl, rfl⟩

/-- C1 witness: the amended behaviour at the concrete running context. -/
theorem claim_C1_witness :
    (start_conversation 2 s_running).conversation = some 2 ∧
    (start_conversation 2 s_running).agent_running = true ∧
    (start_conversation 2 s_running).startCalls = s_running.startCalls ++ [2] ∧
    (start_conversation 2 s_running).stopCalls = s_running.stopCalls ∧
    (start_conversation 2 s_running).writes = s_running.writes :=
  claim_C1 s_running 2 rfl

/-- C2: when the delivered utterance, stripped and lowercased, equals
`"stop"`, the transcript callback invokes `stop_conversation` before
returning (the callback result is exactly `stop_conversation` of the
context after the user-line write), and — with a live handle — the
session state transitions to `Idle` with `stop_session` called on that
handle; for any other utterance `stop_conversation` is not invoked: no
`stop_session` call is added and the running flag and state are
untouched. -/
theorem claim_C2 (s : AgentState) (t : String) :
    (pyLower (pyStrip t) = "stop" →
      handle_user_transcript t s = stop_conversation (user_write t s) ∧
      (∀ h, s.conversation = some h →
        (handle_user_transcript t s).agent_running = false ∧
        (handle_user_transcript t s).stopCalls = s.stopCalls ++ [h] ∧
        (handle_user_transcript t s).sessState = SessState.Idle)) ∧
    (pyLower (pyStrip t) ≠ "stop" →
      handle_user_transcript t s = user_write t s ∧
      (handle_user_transcript t s).stopCalls = s.stopCalls ∧
      (handle_user_transcript t s).agent_running = s.agent_running ∧
      (handle_user_transcript t s).sessState = s.sessState) := by
  constructor
  · intro hstop
    have heq : handle_user_transcript t s = stop_conversation (user_write t s) := by
      simp [handle_user_transcript, hstop]
    refine ⟨heq, ?_⟩
    intro h hc
    rw [heq]
    simp [stop_conversation, user_write, hc, AgentState.sessState]
  · intro hns
    have heq : handle_user_transcript t s = user_write t s := by
      simp [handle_user_transcript, hns]
    rw [heq]
    simp [user_write, AgentState.sessState]

/-- C2 witness: the spec example `"  Stop  "` (mixed case, surrounding
whitespace) drives the running context to `Idle`, and `"hello"` leaves it
untouched. -/
theorem claim_C2_witness :
    handle_user_transcript "  Stop  " s_running =
      stop_conversation (user_write "  Stop  " s_running) ∧
    (handle_user_transcript "  Stop  " s_running).sessState = SessState.Idle ∧
    (handle_user_transcript "hello" s_running).stopCalls = s_running.stopCalls ∧
    (handle_user_transcript "hello" s_running).sessState = s_running.sessState :=
  ⟨((claim_C2 s_running "  Stop  ").1 (by decide)).1,
   (((claim_C2 s_running "  Stop  ").1 (by decide)).2 1 rfl).2.2,
   ((claim_C2 s_running "hello").2 (by decide)).2.1,
   ((claim_C2 s_running "hello").2 (by decide)).2.2.2⟩

/-- C6: calling `stop_conversation` with the session state `Idle` leaves
the state `Idle` and the handle untouched, and a second stop always
reaches the same state-machine state as the first — stop is idempotent at
the state level, with no precondition. -/
theorem claim_C6 (s : AgentState) :
    (s.sessState = SessState.Idle →
      (stop_conversation s).sessState = SessState.Idle ∧
      (stop_conversation s).conversation = s.conversation) ∧
    (stop_conversation (stop_conversation s)).sessState =
      (stop_conversation s).sessState := by
  constructor
  · intro hidle
    cases hc : s.conversation with
    | none =>
      have heq : stop_conversation s = s := by simp [stop_conversation, hc]
      rw [heq]
      exact ⟨hidle, hc⟩
    | some h =>
      simp [stop_conversation, hc, AgentState.sessState]
  · cases hc : s.conversation with
    | none => simp [stop_conversation, hc]
    | some h => simp [stop_conversation, hc, AgentState.sessState]

/-- C6 witness: stopping the already-stopped session (handle retained,
flag clear) keeps the state `Idle` and the handle in place. -/
theorem claim_C6_witness :
    (stop_conversation (stop_conversation s_running)).sessState =
      SessState.Idle ∧
    (stop_conversation (stop_conversation s_running)).conversation =
      (stop_conversation s_running).conversation :=
  ⟨((claim_C6 (stop_conversation s_running)).1 (by decide)).1,
   ((claim_C6 (stop_conversation s_running)).1 (by decide)).2⟩

/-- C10: the global handle is never cleared once set, and stop guards on
the handle, not the flag: with no handle stored `stop_conversation` is the
identity; with a handle stored every stop — whatever the flag — appends a
`stop_session` call on that retained handle and clears the flag; along
any start-free event sequence from the initial context the handle stays
unset, the flag stays clear and stop is a pure no-op; and after any start
in an event sequence the handle is set forever after. -/
theorem claim_C10 :
    (∀ s : AgentState, s.conversation = none → stop_conversation s = s) ∧
    (∀ (s : AgentState) (h : Nat), s.conversation = some h →
      stop_conversation s =
        { s with stopCalls := s.stopCalls ++ [h], agent_running := false,
                 writes := s.writes ++ ["**Agent has been stopped**"] }) ∧
    (∀ ts : List Ev, (∀ e ∈ ts, e.isStart = false) →
      (run ts).conversation = none ∧ (run ts).agent_running = false ∧
      stop_conversation (run ts) = run ts) ∧
    (∀ (ts1 ts2 : List Ev) (h : Nat),
      (run (ts1 ++ Ev.start h :: ts2)).conversation ≠ none) := by
  refine ⟨?_, ?_, ?_, ?_⟩
  · intro s h
    simp [stop_conversation, h]
  · intro s h hc
    simp [stop_conversation, hc]
  · intro ts hns
    have hh := foldl_no_start ts initState rfl hns
    refine ⟨hh.1, hh.2.trans rfl, ?_⟩
    show stop_conversation (ts.foldl step initState) = ts.foldl step initState
    simp [stop_conversation, hh.1]
  · intro ts1 ts2 h
    show (List.foldl step initState (ts1 ++ Ev.start h :: ts2)).conversation ≠ none
    rw [List.foldl_append, List.foldl_cons]
    exact foldl_keeps_handle ts2 _ (by simp [step, start_conversation])

/-- C10 witness: stop before any start is the identity on the initial
context; a stop with handle 1 retained but the flag already clear calls
`stop_session` on handle 1 again and re-clears the flag; a start-free
event sequence keeps the handle unset; and a sequence containing a start
keeps the handle set through later stops. -/
theorem claim_C10_witness :
    stop_conversation initState = initState ∧
    stop_conversation (stop_conversation s_running) =
      { stop_conversation s_running with
          stopCalls := (stop_conversation s_running).stopCalls ++ [1],
          agent_running := false,
          writes := (stop_conversation s_running).writes ++
            ["**Agent has been stopped**"] } ∧
    (run [Ev.stop, Ev.transcript "stop"]).conversation = none ∧
    (run [Ev.start 1, Ev.stop, Ev.stop]).conversation ≠ none :=
  ⟨claim_C10.1 initState rfl,
   claim_C10.2.1 (stop_conversation s_running) 1 rfl,
   (claim_C10.2.2.1 [Ev.stop, Ev.transcript "stop"] (by decide)).1,
   claim_C10.2.2.2 [] [Ev.stop, Ev.stop] 1⟩

end Agensense
